import Mathlib

/-!
Formal model of the budget-yarn-react-native expense tracker.

The client screens compute budget arithmetic over a list of expenses
(`src/app/(tabs)/index.tsx`), persist expenses either in on-device
key-value storage (`src/app/(tabs)/expenses.tsx`, `src/app/budget-setup.tsx`)
or through an Express + MySQL backend (`src/backend/server.js`).
JavaScript numbers are modelled as rationals; timestamps as naturals.
-/

/-- Client-side expense record, as in the `Expense` interface of
`index.tsx` / `expenses.tsx`: `id` is a string (locally `Date.now().toString()`),
`amount` a number, `date` a timestamp (we model the parsed epoch value). -/
structure Expense where
  id : String
  amount : ℚ
  category : String
  note : String
  date : ℕ
deriving DecidableEq, Repr

/-- `const totalSpent = expenses.reduce((sum, expense) => sum + expense.amount, 0)`
from `index.tsx` line 66. -/
def totalSpent (expenses : List Expense) : ℚ :=
  expenses.foldl (fun sum e => sum + e.amount) 0

/-- `const remaining = budget - totalSpent` from `index.tsx` line 67. -/
def remaining (budget : ℚ) (expenses : List Expense) : ℚ :=
  budget - totalSpent expenses

/-- `const percentageUsed = budget > 0 ? (totalSpent / budget) * 100 : 0`
from `index.tsx` line 68. -/
def percentageUsed (budget : ℚ) (expenses : List Expense) : ℚ :=
  if 0 < budget then totalSpent expenses / budget * 100 else 0

/-- `getBudgetStatus` from `index.tsx` lines 76-82: threshold chain from most
to least severe, first match wins. -/
def getBudgetStatus (budget : ℚ) (expenses : List Expense) : String :=
  if remaining budget expenses < 0 then "exceeded"
  else if 90 ≤ percentageUsed budget expenses then "critical"
  else if 75 ≤ percentageUsed budget expenses then "warning"
  else if 50 ≤ percentageUsed budget expenses then "caution"
  else "good"

/-- Numeric severity scale for the status labels:
good < caution < warning < critical < exceeded. -/
def severity (s : String) : ℕ :=
  if s = "exceeded" then 4
  else if s = "critical" then 3
  else if s = "warning" then 2
  else if s = "caution" then 1
  else 0

/-- The spec scenario's expense list: three expenses of 300 each. -/
def scenarioExpenses : List Expense :=
  [⟨"1", 300, "Food", "", 1⟩, ⟨"2", 300, "Food", "", 2⟩, ⟨"3", 300, "Food", "", 3⟩]

/-- Sample expense of amount 60 used for concrete instantiations. -/
def e60 : Expense := ⟨"9", 60, "Food", "", 10⟩

/-- Sample expense of amount 100 used for concrete instantiations. -/
def e100 : Expense := ⟨"7", 100, "Food", "", 11⟩

lemma scenario_totalSpent : totalSpent scenarioExpenses = 900 := by
  norm_num [totalSpent, scenarioExpenses]

lemma scenario_remaining : remaining 1000 scenarioExpenses = 100 := by
  rw [remaining, scenario_totalSpent]; norm_num

lemma scenario_pct : percentageUsed 1000 scenarioExpenses = 90 := by
  rw [percentageUsed, if_pos (by norm_num : (0:ℚ) < 1000), scenario_totalSpent]
  norm_num

lemma scenario_status : getBudgetStatus 1000 scenarioExpenses = "critical" := by
  rw [getBudgetStatus, scenario_remaining, scenario_pct]
  norm_num

lemma remaining_zero_of_empty : remaining 0 [] = 0 := by
  simp [remaining, totalSpent]

/-- Claim C1: the budget status is computed by checking thresholds from most to
least severe with first match winning (remaining < 0 → exceeded; pct ≥ 90 →
critical; ≥ 75 → warning; ≥ 50 → caution; else good); for budget 1000 and
expenses [300, 300, 300] we get totalSpent = 900, remaining = 100,
percentageUsed = 90 and status critical; remaining = 0 alone never yields
exceeded. -/
theorem c1_status_thresholds :
    (∀ (b : ℚ) (es : List Expense), getBudgetStatus b es =
      if remaining b es < 0 then "exceeded"
      else if 90 ≤ percentageUsed b es then "critical"
      else if 75 ≤ percentageUsed b es then "warning"
      else if 50 ≤ percentageUsed b es then "caution"
      else "good")
    ∧ totalSpent scenarioExpenses = 900
    ∧ remaining 1000 scenarioExpenses = 100
    ∧ percentageUsed 1000 scenarioExpenses = 90
    ∧ getBudgetStatus 1000 scenarioExpenses = "critical"
    ∧ ∀ (b : ℚ) (es : List Expense),
        remaining b es = 0 → getBudgetStatus b es ≠ "exceeded" := by
  refine ⟨fun b es => rfl, scenario_totalSpent, scenario_remaining,
    scenario_pct, scenario_status, fun b es h => ?_⟩
  simp only [getBudgetStatus, h]
  norm_num
  split_ifs <;> decide

/-- Witness for C1 at budget 0 with no expenses: remaining is 0 and the status
is not "exceeded". -/
theorem c1_witness : getBudgetStatus 0 [] ≠ "exceeded" :=
  c1_status_thresholds.2.2.2.2.2 0 [] remaining_zero_of_empty

/-- Claim C4 counterexample: with budget 0 and one expense of 100, the code
reports percentageUsed as the plain number 0 (the same value as a state with
no spending at all, so not a distinguishable sentinel) and remaining as the
negative number -100, not a "no budget" sentinel. -/
theorem c4_counterexample :
    percentageUsed 0 [e100] = 0
    ∧ remaining 0 [e100] = -100
    ∧ remaining 0 [e100] < 0
    ∧ percentageUsed 0 [e100] = percentageUsed 1000 [] := by
  norm_num [percentageUsed, remaining, totalSpent, e100]

/-- Claim C4 as amended: when the budget amount is 0 or negative, the division
is never performed and percentageUsed is reported as the plain number 0 (not a
distinguishable sentinel), while remaining equals budget minus totalSpent and
may be negative. -/
theorem c4_no_budget_behavior (budget : ℚ) (es : List Expense)
    (h : budget ≤ 0) :
    percentageUsed budget es = 0 ∧ remaining budget es = budget - totalSpent es := by
  refine ⟨?_, rfl⟩
  rw [percentageUsed, if_neg (not_lt.mpr h)]

/-- Witness for the amended C4 at budget 0 with one expense of 100. -/
theorem c4_witness :
    percentageUsed 0 [e100] = 0 ∧ remaining 0 [e100] = 0 - totalSpent [e100] :=
  c4_no_budget_behavior 0 [e100] (le_refl 0)

lemma remaining_100_nil : (0:ℚ) ≤ remaining 100 [] := by
  norm_num [remaining, totalSpent]

lemma remaining_100_e60 : (0:ℚ) ≤ remaining 100 [e60] := by
  norm_num [remaining, totalSpent, e60]

lemma pct_100_nil_le_e60 : percentageUsed 100 [] ≤ percentageUsed 100 [e60] := by
  norm_num [percentageUsed, totalSpent, e60]

/-- Row of the MySQL `expenses` table (server.js lines 29-43):
`id INT AUTO_INCREMENT PRIMARY KEY, amount DECIMAL, category VARCHAR NOT NULL,
note TEXT (nullable), date DATETIME NOT NULL` (stored datetime modelled as the
formatted string). -/
structure ServerExpense where
  id : ℕ
  amount : ℚ
  category : String
  note : Option String
  date : String
deriving DecidableEq, Repr

/-- Server-side store: the `expenses` table plus its AUTO_INCREMENT counter. -/
structure ServerState where
  nextId : ℕ
  rows : List ServerExpense
deriving DecidableEq, Repr

/-- JSON body of `POST /expenses`; a `none` field is absent from the body. -/
structure PostBody where
  amount : Option ℚ
  category : Option String
  note : Option String
  date : Option String
deriving DecidableEq, Repr

/-- Numeric value of a two-character digit pair. -/
def twoDigitVal (a b : Char) : ℕ :=
  10 * (a.toNat - 48) + (b.toNat - 48)

/-- Accepted continuations after the seconds field of a timestamp: nothing, a
trailing Z, or a three-digit millisecond part with an optional trailing Z. -/
def validTimeTail : List Char → Bool
  | [] => true
  | ['Z'] => true
  | '.' :: a :: b :: c :: rest =>
      ([a, b, c].all Char.isDigit) && (rest.isEmpty || rest == ['Z'])
  | _ => false

/-- An `HH:MM:SS` time with in-range fields followed by a valid tail. -/
def validTime : List Char → Bool
  | h1 :: h2 :: ':' :: n1 :: n2 :: ':' :: s1 :: s2 :: rest =>
      ([h1, h2, n1, n2, s1, s2].all Char.isDigit)
      && twoDigitVal h1 h2 ≤ 23 && twoDigitVal n1 n2 ≤ 59 && twoDigitVal s1 s2 ≤ 59
      && validTimeTail rest
  | _ => false

/-- Model of which date strings `new Date(date)` parses in this app's wire
format (the client sends `new Date().toISOString()` values): an ISO-8601
`YYYY-MM-DD` with in-range month and day, optionally followed by a `T` or
space separated `HH:MM:SS[.sss][Z]` time. On any other string `new Date`
yields an Invalid Date whose `toISOString()` throws. -/
def jsDateParses (s : String) : Bool :=
  match s.data with
  | y1 :: y2 :: y3 :: y4 :: '-' :: m1 :: m2 :: '-' :: d1 :: d2 :: rest =>
      ([y1, y2, y3, y4, m1, m2, d1, d2].all Char.isDigit)
      && 1 ≤ twoDigitVal m1 m2 && twoDigitVal m1 m2 ≤ 12
      && 1 ≤ twoDigitVal d1 d2 && twoDigitVal d1 d2 ≤ 31
      && (match rest with
          | [] => true
          | 'T' :: t => validTime t
          | ' ' :: t => validTime t
          | _ => false)
  | _ => false

/-- `POST /expenses` handler (server.js lines 66-93): the guard
`if (!amount || !category || !date)` rejects with 400 exactly when a field is
missing or JS-falsy (amount 0, empty category or date string); then the
handler runs `new Date(date).toISOString()` inside try/catch, so a non-empty
date string that does not parse is answered 500 with no insert; otherwise the
row is inserted with the next AUTO_INCREMENT id and the response is 201 (the
stored DATETIME is modelled by the accepted date string). -/
def postExpense (st : ServerState) (b : PostBody) : ServerState × ℕ :=
  match b.amount, b.category, b.date with
  | some a, some c, some d =>
    if a = 0 ∨ c = "" ∨ d = "" then (st, 400)
    else if jsDateParses d then
      ({ nextId := st.nextId + 1,
         rows := st.rows ++ [⟨st.nextId, a, c, b.note, d⟩] }, 201)
    else (st, 500)
  | _, _, _ => (st, 400)

/-- `DELETE /expenses/:id` handler (server.js lines 95-105):
`DELETE FROM expenses WHERE id = ?` then 204 unconditionally. -/
def deleteExpenseById (st : ServerState) (id : ℕ) : ServerState × ℕ :=
  ({ st with rows := st.rows.filter (fun e => e.id != id) }, 204)

/-- `DELETE /expenses` handler (server.js lines 107-116): wipe the table, 204. -/
def clearExpenses (st : ServerState) : ServerState × ℕ :=
  ({ st with rows := [] }, 204)

/-- `GET /expenses` handler (server.js lines 47-64): read-only, 200. -/
def getExpenses (st : ServerState) : ServerState × ℕ :=
  (st, 200)

/-- HTTP methods used by the client (`useApi.ts`). -/
inductive Method
  | GET
  | POST
  | DELETE
  | PUT
deriving DecidableEq, Repr

/-- Express routing of server.js: only `GET /expenses`, `POST /expenses`,
`DELETE /expenses` and `DELETE /expenses/:id` are registered; any other
method/path pair falls through to Express's default 404 with no state change.
MySQL coerces a non-numeric id string to 0, modelled by `toNat?.getD 0`. -/
def handleRequest (m : Method) (path : List String) (b : PostBody)
    (st : ServerState) : ServerState × ℕ :=
  match m, path with
  | .GET, ["expenses"] => getExpenses st
  | .POST, ["expenses"] => postExpense st b
  | .DELETE, ["expenses"] => clearExpenses st
  | .DELETE, ["expenses", idStr] => deleteExpenseById st (idStr.toNat?.getD 0)
  | _, _ => (st, 404)

/-- Claim C2 (code bug): server.js registers no PUT route, so every
`PUT /expenses/:id` request falls through to the 404 default and leaves the
store unchanged; the documented 200/204 merge-patch update never happens. -/
theorem c2_put_not_routed :
    ∀ (st : ServerState) (b : PostBody),
      handleRequest Method.PUT ["expenses", "1"] b st = (st, 404) :=
  fun _ _ => rfl

/-- Claim C8: holding remaining nonnegative, a state with larger or equal
percentageUsed never has a strictly smaller status severity. -/
theorem c8_status_monotone (b1 b2 : ℚ) (l1 l2 : List Expense)
    (h1 : 0 ≤ remaining b1 l1) (h2 : 0 ≤ remaining b2 l2)
    (hp : percentageUsed b1 l1 ≤ percentageUsed b2 l2) :
    severity (getBudgetStatus b1 l1) ≤ severity (getBudgetStatus b2 l2) := by
  simp only [getBudgetStatus, if_neg (not_lt.mpr h1), if_neg (not_lt.mpr h2)]
  split_ifs <;> first | decide | linarith

/-- Witness for C8: budget 100 with no expenses versus budget 100 with one
60-peso expense. -/
theorem c8_witness :
    severity (getBudgetStatus 100 []) ≤ severity (getBudgetStatus 100 [e60]) :=
  c8_status_monotone 100 100 [] [e60] remaining_100_nil remaining_100_e60
    pct_100_nil_le_e60

/-- Value of a digit string, most significant digit first. -/
def digitsToNat (ds : List Char) : ℕ :=
  ds.foldl (fun n c => 10 * n + (c.toNat - 48)) 0

/-- Model of JavaScript `parseFloat` on the decimal literals entered in the
amount fields: an optional sign, then digits with an optional fractional part;
`none` models the NaN result when no digits can be read. -/
def parseFloatQ (s : String) : Option ℚ :=
  let signed :=
    match s.data with
    | '-' :: rest => (true, rest)
    | '+' :: rest => (false, rest)
    | cs => (false, cs)
  let cs := signed.2
  let intDigits := cs.takeWhile Char.isDigit
  let rest := cs.dropWhile Char.isDigit
  let fracDigits :=
    match rest with
    | '.' :: r => r.takeWhile Char.isDigit
    | _ => []
  if intDigits.isEmpty && fracDigits.isEmpty then none
  else
    let mag : ℚ :=
      match fracDigits with
      | [] => (digitsToNat intDigits : ℚ)
      | _ => (digitsToNat intDigits : ℚ)
          + (digitsToNat fracDigits : ℚ) / 10 ^ fracDigits.length
    some (if signed.1 then -mag else mag)

/-- The new expense built by the add workflow (expenses.tsx lines 620-626):
`id: Date.now().toString()`, `date: new Date().toISOString()`; `tNow` is the
current epoch-millisecond clock reading, which also parses back as the date. -/
def mkNewExpense (tNow : ℕ) (amount : ℚ) (category note : String) : Expense :=
  ⟨toString tNow, amount, category, note, tNow⟩

/-- `handleAddExpense` (expenses.tsx lines 601-629 and its tabs variant):
reject a NaN or nonpositive parsed amount, then an unselected category, else
append the new expense to the stored list. The returned flag records whether
the expense was added. -/
def handleAddExpense (amountStr selectedCategory note : String) (tNow : ℕ)
    (expenses : List Expense) : List Expense × Bool :=
  match parseFloatQ amountStr with
  | none => (expenses, false)
  | some a =>
    if a ≤ 0 then (expenses, false)
    else if selectedCategory = "" then (expenses, false)
    else (expenses ++ [mkNewExpense tNow a selectedCategory note.trim], true)

/-- Claim C3 counterexample: a POST with the strictly negative amount -5 and
valid category and date passes the server's `!amount || !category || !date`
guard, is written to the table and answered 201, so a negative amount is not
always rejected before persistence. -/
theorem c3_counterexample :
    (postExpense ⟨1, []⟩ ⟨some (-5), some "Food", none, some "2024-01-01 00:00:00"⟩).2 = 201
    ∧ (postExpense ⟨1, []⟩ ⟨some (-5), some "Food", none, some "2024-01-01 00:00:00"⟩).1.rows
        = [⟨1, -5, "Food", none, "2024-01-01 00:00:00"⟩] := by
  decide

/-- Claim C3 as amended: a create with missing or zero amount, missing or
empty category, or missing or empty date is rejected by the HTTP handler with
400 and no store change; a non-empty date string that `new Date` cannot parse
is answered 500, also with no store change; the client-side create
additionally rejects a NaN or nonpositive (hence any negative) parsed amount
before writing; but the HTTP handler accepts a strictly negative amount with
valid category and parseable date, inserting the row and answering 201. -/
theorem c3_create_validation :
    (∀ (st : ServerState) (b : PostBody),
        (b.amount = none ∨ b.amount = some 0 ∨ b.category = none
          ∨ b.category = some "" ∨ b.date = none ∨ b.date = some "") →
        postExpense st b = (st, 400))
    ∧ (∀ (amountStr cat note : String) (t : ℕ) (es : List Expense) (a : ℚ),
        parseFloatQ amountStr = some a → a ≤ 0 →
        handleAddExpense amountStr cat note t es = (es, false))
    ∧ (∀ (amountStr cat note : String) (t : ℕ) (es : List Expense),
        parseFloatQ amountStr = none →
        handleAddExpense amountStr cat note t es = (es, false))
    ∧ (∀ (st : ServerState) (a : ℚ) (c d : String),
        a ≠ 0 → c ≠ "" → d ≠ "" → jsDateParses d = false →
        postExpense st ⟨some a, some c, none, some d⟩ = (st, 500))
    ∧ (∀ (st : ServerState) (a : ℚ) (c d : String),
        a < 0 → c ≠ "" → jsDateParses d = true →
        (postExpense st ⟨some a, some c, none, some d⟩).2 = 201
        ∧ (postExpense st ⟨some a, some c, none, some d⟩).1.rows
            = st.rows ++ [⟨st.nextId, a, c, none, d⟩]) := by
  refine ⟨?_, ?_, ?_, ?_, ?_⟩
  · intro st b h
    rcases b with ⟨am, cat, nt, dt⟩
    rcases am with _ | a <;> rcases cat with _ | c <;> rcases dt with _ | d <;>
      simp_all [postExpense]
  · intro amountStr cat note t es a hp ha
    simp [handleAddExpense, hp, ha]
  · intro amountStr cat note t es hp
    simp [handleAddExpense, hp]
  · intro st a c d ha hc hd hdp
    have hg : ¬(a = 0 ∨ c = "" ∨ d = "") := by
      push_neg
      exact ⟨ha, hc, hd⟩
    simp [postExpense, hg, hdp]
  · intro st a c d ha hc hdp
    have hd : d ≠ "" := by
      intro h
      rw [h] at hdp
      exact absurd hdp (by decide)
    have hg : ¬(a = 0 ∨ c = "" ∨ d = "") := by
      push_neg
      exact ⟨ne_of_lt ha, hc, hd⟩
    simp [postExpense, hg, hdp]

lemma parseFloatQ_zero : parseFloatQ "0" = some 0 := rfl

lemma parseFloatQ_abc : parseFloatQ "abc" = none := rfl

lemma neg_five_lt_zero : (-5 : ℚ) < 0 := by decide

lemma jsDateParses_sample : jsDateParses "2024-01-01 00:00:00" = true := by decide

lemma jsDateParses_junk : jsDateParses "d" = false := rfl

/-- Witness for the amended C3: zero amount rejected by the server, zero and
non-numeric amounts rejected by the client, an unparseable date answered 500
without a write, and a negative amount with a parseable date accepted and
stored by the server. -/
theorem c3_witness :
    postExpense ⟨1, []⟩ ⟨some 0, some "Food", none, some "2024-01-01 00:00:00"⟩
        = (⟨1, []⟩, 400)
    ∧ handleAddExpense "0" "Food" "" 5 [] = ([], false)
    ∧ handleAddExpense "abc" "Food" "" 5 [] = ([], false)
    ∧ postExpense ⟨1, []⟩ ⟨some 5, some "Food", none, some "d"⟩ = (⟨1, []⟩, 500)
    ∧ ((postExpense ⟨1, []⟩
          ⟨some (-5), some "Food", none, some "2024-01-01 00:00:00"⟩).2 = 201
        ∧ (postExpense ⟨1, []⟩
          ⟨some (-5), some "Food", none, some "2024-01-01 00:00:00"⟩).1.rows
            = [] ++ [⟨1, -5, "Food", none, "2024-01-01 00:00:00"⟩]) :=
  ⟨c3_create_validation.1 _ _ (Or.inr (Or.inl rfl)),
   c3_create_validation.2.1 "0" "Food" "" 5 [] 0 parseFloatQ_zero (le_refl 0),
   c3_create_validation.2.2.1 "abc" "Food" "" 5 [] parseFloatQ_abc,
   c3_create_validation.2.2.2.1 ⟨1, []⟩ 5 "Food" "d" (by decide) (by decide)
     (by decide) jsDateParses_junk,
   c3_create_validation.2.2.2.2 ⟨1, []⟩ (-5) "Food" "2024-01-01 00:00:00"
     neg_five_lt_zero (by decide) jsDateParses_sample⟩

/-- Claim C5: deleting an id present on no stored row is a no-op answered 204;
the store, hence the length of a subsequent list and every other record, is
unchanged. -/
theorem c5_delete_missing_id (st : ServerState) (id : ℕ)
    (h : ∀ e ∈ st.rows, e.id ≠ id) :
    deleteExpenseById st id = (st, 204) := by
  have hf : st.rows.filter (fun e => e.id != id) = st.rows :=
    List.filter_eq_self.mpr (fun e he => by simpa using h e he)
  simp [deleteExpenseById, hf]

/-- Witness for C5: deleting absent id 7 from a one-row store changes nothing. -/
theorem c5_witness :
    deleteExpenseById ⟨2, [⟨1, 50, "Food", none, "d"⟩]⟩ 7
      = (⟨2, [⟨1, 50, "Food", none, "d"⟩]⟩, 204) :=
  c5_delete_missing_id _ 7 (by decide)

/-- Running a sequence of POST bodies through the server. -/
def postSeq (st : ServerState) (bs : List PostBody) : ServerState :=
  bs.foldl (fun s b => (postExpense s b).1) st

/-- Id invariant of the AUTO_INCREMENT table: stored ids are pairwise distinct
and all below the counter. -/
def goodIds (st : ServerState) : Prop :=
  (st.rows.map (fun e => e.id)).Nodup ∧ ∀ e ∈ st.rows, e.id < st.nextId

lemma postExpense_goodIds (st : ServerState) (b : PostBody)
    (h : goodIds st) : goodIds (postExpense st b).1 := by
  obtain ⟨hn, hb⟩ := h
  rcases b with ⟨am, cat, nt, dt⟩
  rcases am with _ | a
  · exact ⟨hn, hb⟩
  rcases cat with _ | c
  · exact ⟨hn, hb⟩
  rcases dt with _ | d
  · exact ⟨hn, hb⟩
  by_cases hg : a = 0 ∨ c = "" ∨ d = ""
  · simp only [postExpense, if_pos hg]
    exact ⟨hn, hb⟩
  by_cases hdp : jsDateParses d = true
  case neg =>
    simp only [postExpense, if_neg hg, if_neg hdp]
    exact ⟨hn, hb⟩
  · simp only [postExpense, if_neg hg, if_pos hdp]
    constructor
    · rw [List.map_append]
      refine List.Nodup.append hn (List.nodup_singleton _) ?_
      intro x hx1 hx2
      simp only [List.map_cons, List.map_nil, List.mem_singleton] at hx2
      obtain ⟨e, he, hei⟩ := List.mem_map.mp hx1
      have := hb e he
      omega
    · intro e he
      show e.id < st.nextId + 1
      rcases List.mem_append.mp he with h1 | h1
      · have := hb e h1
        omega
      · simp only [List.mem_singleton] at h1
        subst h1
        show st.nextId < st.nextId + 1
        omega

lemma postSeq_goodIds (bs : List PostBody) (st : ServerState)
    (h : goodIds st) : goodIds (postSeq st bs) := by
  induction bs generalizing st with
  | nil => exact h
  | cons b bs ih =>
    rw [postSeq, List.foldl_cons]
    exact ih _ (postExpense_goodIds st b h)

/-- Claim C9 as amended: the backend create assigns each new row the
AUTO_INCREMENT counter value, so from any state satisfying the id invariant
(in particular the initial empty table), any sequence of creates, including
immediately successive ones, yields pairwise distinct ids. -/
theorem c9_server_ids_distinct (bs : List PostBody) (st : ServerState)
    (h : goodIds st) :
    ((postSeq st bs).rows.map (fun e => e.id)).Nodup :=
  (postSeq_goodIds bs st h).1

/-- Claim C9 counterexample: in the local variant the id is
`Date.now().toString()`, so two creates within the same millisecond (clock
reading 1000) produce duplicate ids in the stored list. -/
theorem c9_counterexample :
    ¬ (((handleAddExpense "20" "Bus" "" 1000
          (handleAddExpense "50" "Food" "" 1000 []).1).1.map
            (fun e => e.id)).Nodup) := by
  decide

lemma goodIds_init : goodIds ⟨1, []⟩ := by
  simp [goodIds]

/-- Witness for the amended C9: two immediately successive creates on the
empty table receive distinct ids. -/
theorem c9_witness :
    ((postSeq ⟨1, []⟩
        [⟨some 50, some "Food", none, some "2024-01-01 00:00:00"⟩,
         ⟨some 20, some "Bus", none, some "2024-01-01 00:00:00"⟩]).rows.map
      (fun e => e.id)).Nodup :=
  c9_server_ids_distinct _ _ goodIds_init

/-- On-device key-value store (AsyncStorage): keys `budget_type`,
`budget_amount` (decimal-as-string) and `expenses` (serialized list, modelled
at the value level). -/
structure StorageState where
  budget_type : Option String
  budget_amount : Option String
  expenses : Option (List Expense)
deriving DecidableEq, Repr

/-- `handleSetBudget` from budget-setup.tsx lines 20-35: parse the entered
amount, reject NaN or a nonpositive value, otherwise persist the raw amount
string under `budget_amount` and overwrite `expenses` with the empty list. -/
def handleSetBudget (st : StorageState) (budgetAmountStr : String) : StorageState :=
  match parseFloatQ budgetAmountStr with
  | none => st
  | some a =>
    if a ≤ 0 then st
    else { st with budget_amount := some budgetAmountStr, expenses := some [] }

/-- Claim C10: whenever the budget-setup save succeeds (entered amount parses
to a positive number), the persisted expenses key is overwritten with the
empty list, whatever expense list was stored before; the amount string is
saved and the budget type is untouched. -/
theorem c10_set_budget_clears_expenses (st : StorageState) (s : String) (a : ℚ)
    (hp : parseFloatQ s = some a) (hpos : 0 < a) :
    (handleSetBudget st s).expenses = some []
    ∧ (handleSetBudget st s).budget_amount = some s
    ∧ (handleSetBudget st s).budget_type = st.budget_type := by
  simp [handleSetBudget, hp, not_le.mpr hpos]

lemma parseFloatQ_500 : parseFloatQ "500" = some 500 := rfl

lemma zero_lt_500 : (0 : ℚ) < 500 := by decide

/-- Witness for C10: re-saving amount 500 over a store holding one expense
erases the stored expense list. -/
theorem c10_witness :
    (handleSetBudget ⟨some "weekly", some "200", some [e100]⟩ "500").expenses
        = some []
    ∧ (handleSetBudget ⟨some "weekly", some "200", some [e100]⟩ "500").budget_amount
        = some "500"
    ∧ (handleSetBudget ⟨some "weekly", some "200", some [e100]⟩ "500").budget_type
        = (⟨some "weekly", some "200", some [e100]⟩ : StorageState).budget_type :=
  c10_set_budget_clears_expenses ⟨some "weekly", some "200", some [e100]⟩
    "500" 500 parseFloatQ_500 zero_lt_500

/-- Insertion step of the stable descending sort by date modelling
`expenses.sort((a, b) => new Date(b.date).getTime() - new Date(a.date).getTime())`
from index.tsx lines 71-73 (JS sort is stable): the new element goes before the
first element whose date is not larger, so an element earlier in the input
stays before later elements of equal date. -/
def insertByDateDesc (a : Expense) : List Expense → List Expense
  | [] => [a]
  | b :: l => if b.date ≤ a.date then a :: b :: l else b :: insertByDateDesc a l

/-- Result of the stable sort by date descending. -/
def sortByDateDesc : List Expense → List Expense
  | [] => []
  | a :: l => insertByDateDesc a (sortByDateDesc l)

/-- `recentExpenses` from index.tsx lines 71-73: the sorted list's first 5. -/
def recentExpenses (expenses : List Expense) : List Expense :=
  (sortByDateDesc expenses).take 5

lemma insertByDateDesc_perm (a : Expense) (l : List Expense) :
    (insertByDateDesc a l).Perm (a :: l) := by
  induction l with
  | nil => exact List.Perm.refl _
  | cons b l ih =>
    simp only [insertByDateDesc]
    by_cases h : b.date ≤ a.date
    · rw [if_pos h]
    · rw [if_neg h]
      exact (ih.cons b).trans (List.Perm.swap a b l)

lemma sortByDateDesc_perm (l : List Expense) : (sortByDateDesc l).Perm l := by
  induction l with
  | nil => exact List.Perm.refl _
  | cons a l ih =>
    exact (insertByDateDesc_perm a (sortByDateDesc l)).trans (ih.cons a)

lemma insertByDateDesc_pairwise (a : Expense) (l : List Expense)
    (h : List.Pairwise (fun x y => y.date ≤ x.date) l) :
    List.Pairwise (fun x y => y.date ≤ x.date) (insertByDateDesc a l) := by
  induction l with
  | nil => simp [insertByDateDesc]
  | cons b l ih =>
    rw [List.pairwise_cons] at h
    obtain ⟨hb, hl⟩ := h
    simp only [insertByDateDesc]
    by_cases hba : b.date ≤ a.date
    · rw [if_pos hba]
      refine List.Pairwise.cons ?_ (List.Pairwise.cons hb hl)
      intro y hy
      rcases List.mem_cons.mp hy with rfl | hy2
      · exact hba
      · exact le_trans (hb y hy2) hba
    · rw [if_neg hba]
      refine List.Pairwise.cons ?_ (ih hl)
      intro y hy
      have hmem : y ∈ a :: l := (insertByDateDesc_perm a l).mem_iff.mp hy
      rcases List.mem_cons.mp hmem with rfl | hy2
      · omega
      · exact hb y hy2

lemma sortByDateDesc_pairwise (l : List Expense) :
    List.Pairwise (fun x y => y.date ≤ x.date) (sortByDateDesc l) := by
  induction l with
  | nil => exact List.Pairwise.nil
  | cons a l ih => exact insertByDateDesc_pairwise a (sortByDateDesc l) ih

lemma insertByDateDesc_filter (a : Expense) (l : List Expense) (d : ℕ) :
    (insertByDateDesc a l).filter (fun e => e.date == d)
      = if a.date = d then a :: l.filter (fun e => e.date == d)
        else l.filter (fun e => e.date == d) := by
  induction l with
  | nil =>
    by_cases h : a.date = d <;> simp [insertByDateDesc, List.filter_cons, h]
  | cons b l ih =>
    simp only [insertByDateDesc]
    by_cases hba : b.date ≤ a.date
    · rw [if_pos hba]
      by_cases h : a.date = d <;> simp [List.filter_cons, h]
    · rw [if_neg hba]
      rw [List.filter_cons, ih, List.filter_cons]
      by_cases had : a.date = d
      · have hbd : (b.date == d) = false := by
          rw [beq_eq_false_iff_ne]
          omega
        simp [had, hbd]
      · by_cases hbd : b.date = d <;> simp [had, hbd]

lemma sortByDateDesc_filter (l : List Expense) (d : ℕ) :
    (sortByDateDesc l).filter (fun e => e.date == d)
      = l.filter (fun e => e.date == d) := by
  induction l with
  | nil => rfl
  | cons a l ih =>
    show (insertByDateDesc a (sortByDateDesc l)).filter _ = _
    rw [insertByDateDesc_filter, ih, List.filter_cons]
    by_cases h : a.date = d <;> simp [h]

lemma sortByDateDesc_of_pairwise (l : List Expense)
    (h : List.Pairwise (fun x y => y.date ≤ x.date) l) :
    sortByDateDesc l = l := by
  induction l with
  | nil => rfl
  | cons a l ih =>
    rw [List.pairwise_cons] at h
    obtain ⟨ha, hl⟩ := h
    show insertByDateDesc a (sortByDateDesc l) = a :: l
    rw [ih hl]
    cases l with
    | nil => rfl
    | cons b l2 =>
      simp only [insertByDateDesc]
      rw [if_pos (ha b (List.mem_cons_self b l2))]

lemma sortByDateDesc_idem (l : List Expense) :
    sortByDateDesc (sortByDateDesc l) = sortByDateDesc l :=
  sortByDateDesc_of_pairwise _ (sortByDateDesc_pairwise l)

/-- First of two sample expenses sharing the timestamp 5. -/
def tieA : Expense := ⟨"11", 10, "Food", "", 5⟩

/-- Second of two sample expenses sharing the timestamp 5. -/
def tieB : Expense := ⟨"12", 20, "Transportation", "", 5⟩

/-- Claim C7: the recent-expenses view is the first 5 elements of the list
sorted by date descending; the sort permutes the input, is pairwise descending
in date, is stable (for every timestamp the subsequence of expenses carrying
it is exactly as in the input, so ties are broken by input position), and is
idempotent, so repeated calls on the in-place-sorted array return the same
result; concretely, two expenses with identical timestamps keep their
insertion order. -/
theorem c7_recent_expenses (es : List Expense) :
    recentExpenses es = (sortByDateDesc es).take 5
    ∧ (sortByDateDesc es).Perm es
    ∧ List.Pairwise (fun x y => y.date ≤ x.date) (sortByDateDesc es)
    ∧ (∀ d : ℕ, (sortByDateDesc es).filter (fun e => e.date == d)
        = es.filter (fun e => e.date == d))
    ∧ sortByDateDesc (sortByDateDesc es) = sortByDateDesc es
    ∧ recentExpenses [tieA, tieB] = [tieA, tieB] :=
  ⟨rfl, sortByDateDesc_perm es, sortByDateDesc_pairwise es,
   fun d => sortByDateDesc_filter es d, sortByDateDesc_idem es, by decide⟩
